import Mathlib

/-! Actor metrics registry (`metrics/actor_metrics.go`)

A shallow embedding of the instrument registry of protoactor-go:
`NewActorMetrics` / `newInstruments` (construction against a metrics backend,
with per-instrument error logging) and `SetActorMailboxLengthGauge` (the
mutex-guarded replacement of the mailbox-length gauge).

Conventions of the embedding

* A Go interface value or pointer that may be nil is an `Option`; `none` is nil.
* The metrics backend is a parameter: a provider maps a library name to a
  meter, and a meter maps a creation request to its reply `(handle, err)`.
* The effects of construction (the creation requests received by the backend
  and the calls of `plog.Error`) are recorded, in order, in the frame that is
  threaded through the statements of `newInstruments`.
* A call that may panic or block returns an `Outcome`.
-/

namespace Metrics

/-! ## Go values -/

/-- Go `error` values: one produced by the backend, carrying its text, or one
built by `fmt.Errorf` with the `%w` verb, carrying the formatted text and the
error it wraps. -/
inductive GoError where
  | backend (text : String)
  | wrapped (text : String) (inner : GoError)
  deriving DecidableEq, Repr

/-- The method `Error()` of an error value: its text. -/
def GoError.Error : GoError → String
  | .backend text => text
  | .wrapped text _ => text

/-- The call `fmt.Errorf(context + "%w", err)`: the text is the context followed
by the text of `err`, and the result wraps `err`. -/
def Errorf (context : String) (err : GoError) : GoError :=
  .wrapped (context ++ err.Error) err

/-- The result of a Go call that may fail to return: it returned a value, it
panicked, or it blocks forever. -/
inductive Outcome (α : Type) where
  | returned (a : α)
  | panicked
  | blocked
  deriving DecidableEq, Repr

/-! ## The logger `plog` -/

/-- A structured field attached to a log call; `log.Error(err)` is the only one
used here. -/
inductive LogField where
  | Error (err : GoError)
  deriving DecidableEq, Repr

/-- One call `plog.Error(message, fields...)`. -/
structure LogEntry where
  message : String
  fields : List LogField
  deriving DecidableEq, Repr

/-! ## The metrics backend -/

/-- The constants of package `unit` that a request may carry. -/
inductive MetricUnit where
  | Dimensionless
  | Bytes
  | Milliseconds
  deriving DecidableEq, Repr

/-- The options of package `instrument` passed with a creation request. -/
inductive InstrumentOption where
  | WithDescription (desc : String)
  | WithUnit (u : MetricUnit)
  deriving DecidableEq, Repr

/-- The instrument constructors of a meter that are reachable as
`meter.AsyncInt64().Counter`, `meter.AsyncInt64().Gauge`,
`meter.SyncFloat64().Histogram` and `meter.SyncInt64().Histogram`. -/
inductive InstrumentKind where
  | AsyncInt64Counter
  | AsyncInt64Gauge
  | SyncFloat64Histogram
  | SyncInt64Histogram
  deriving DecidableEq, Repr

/-- One creation request as the backend receives it. -/
structure Request where
  kind : InstrumentKind
  name : String
  options : List InstrumentOption
  deriving DecidableEq, Repr

/-- A meter: the reply `(handle, err)` to each creation request. The handle is
an interface value (nil is `none`), `err` is nil (`none`) on success. -/
abbrev Meter (H : Type) := Request → Option H × Option GoError

/-- The process-wide provider behind `global.Meter(name)`. -/
abbrev Provider (H : Type) := String → Meter H

/-! ## The registry -/

/-- The state of a `sync.Mutex`. -/
structure Mutex where
  locked : Bool
  deriving DecidableEq, Repr

/-- The call `m.Lock()` through a pointer `m`, in a single thread of control:
a nil pointer is dereferenced (panic), a held mutex is never released
(blocked), a free mutex becomes held. -/
def Mutex.Lock : Option Mutex → Outcome Mutex
  | none => .panicked
  | some m => if m.locked then .blocked else .returned { locked := true }

/-- The call `m.Unlock()` through a pointer `m`: unlocking a mutex that is not
held is a fatal error. -/
def Mutex.Unlock : Option Mutex → Outcome Mutex
  | none => .panicked
  | some m => if m.locked then .returned { locked := false } else .panicked

/-- The constant `LibName`. -/
def LibName : String := "protoactor"

/-- The struct `ActorMetrics`: the guard (a pointer), the identifier and the
eleven instrument handles (interface values). -/
structure ActorMetrics (H : Type) where
  mu : Option Mutex
  ID : String
  ActorFailureCount : Option H
  ActorMailboxLength : Option H
  ActorMessageReceiveHistogram : Option H
  ActorRestartedCount : Option H
  ActorSpawnCount : Option H
  ActorStoppedCount : Option H
  DeadLetterCount : Option H
  FuturesCompletedCount : Option H
  FuturesStartedCount : Option H
  FuturesTimedOutCount : Option H
  ThreadPoolLatency : Option H
  deriving DecidableEq, Repr

/-- The zero value of `ActorMetrics`. -/
def ActorMetrics.zero {H : Type} : ActorMetrics H :=
  { mu := none, ID := "",
    ActorFailureCount := none, ActorMailboxLength := none,
    ActorMessageReceiveHistogram := none, ActorRestartedCount := none,
    ActorSpawnCount := none, ActorStoppedCount := none,
    DeadLetterCount := none, FuturesCompletedCount := none,
    FuturesStartedCount := none, FuturesTimedOutCount := none,
    ThreadPoolLatency := none }

/-- The local variables of `newInstruments` (`instruments`, `err`) together
with the effects so far: the creation requests received by the backend and the
calls of `plog.Error`, both in order. -/
structure Frame (H : Type) where
  instruments : ActorMetrics H
  err : Option GoError
  requests : List Request
  reports : List LogEntry

/-- One statement of `newInstruments`, of the form
`if instruments.F, err = meter.K().M(name, opts...); err != nil { ... }`:
the reply of the meter is assigned to the field and to `err`; when `err` is
not nil it is wrapped with the given context and reported with `plog.Error`. -/
def createInstrument {H : Type} (meter : Meter H)
    (assign : ActorMetrics H → Option H → ActorMetrics H)
    (request : Request) (context : String) (s : Frame H) : Frame H :=
  let reply := meter request
  let s1 : Frame H :=
    { instruments := assign s.instruments reply.1, err := reply.2,
      requests := s.requests ++ [request], reports := s.reports }
  match s1.err with
  | none => s1
  | some err =>
    let err := Errorf context err
    { s1 with
      err := some err,
      reports := s1.reports ++ [{ message := err.Error, fields := [LogField.Error err] }] }

open InstrumentKind InstrumentOption MetricUnit

/-- The final frame of `newInstruments`, statement by statement. -/
def newInstrumentsFrame {H : Type} (provider : Provider H) : Frame H :=
  let meter := provider LibName
  let s : Frame H :=
    { instruments := { (ActorMetrics.zero : ActorMetrics H) with mu := some { locked := false } },
      err := none, requests := [], reports := [] }
  let s := createInstrument meter (fun i h => { i with ActorFailureCount := h })
    { kind := AsyncInt64Counter, name := "protoactor_actor_failure_count",
      options := [WithDescription "Number of actor failures", WithUnit Dimensionless] }
    "failed to create ActorFailureCount instrument, " s
  let s := createInstrument meter (fun i h => { i with ActorMessageReceiveHistogram := h })
    { kind := SyncFloat64Histogram, name := "protoactor_actor_message_receive_duration_seconds",
      options := [WithDescription "Actor's messages received duration in seconds"] }
    "failed to create ActorMessageReceiveHistogram instrument, " s
  let s := createInstrument meter (fun i h => { i with ActorRestartedCount := h })
    { kind := AsyncInt64Counter, name := "protoactor_actor_restarted_count",
      options := [WithDescription "Number of actors restarts", WithUnit Dimensionless] }
    "failed to create ActorRestartedCount instrument, " s
  let s := createInstrument meter (fun i h => { i with ActorStoppedCount := h })
    { kind := AsyncInt64Counter, name := "protoactor_actor_stopped_count",
      options := [WithDescription "Number of actors stopped", WithUnit Dimensionless] }
    "failed to create ActorStoppedCount instrument, " s
  let s := createInstrument meter (fun i h => { i with ActorSpawnCount := h })
    { kind := AsyncInt64Counter, name := "protoactor_actor_spawn_count",
      options := [WithDescription "Number of actors spawn", WithUnit Dimensionless] }
    "failed to create ActorSpawnCount instrument, " s
  let s := createInstrument meter (fun i h => { i with DeadLetterCount := h })
    { kind := AsyncInt64Counter, name := "protoactor_deadletter_count",
      options := [WithDescription "Number of deadletters", WithUnit Dimensionless] }
    "failed to create DeadLetterCount instrument, " s
  let s := createInstrument meter (fun i h => { i with FuturesCompletedCount := h })
    { kind := AsyncInt64Counter, name := "protoactor_futures_completed_count",
      options := [WithDescription "Number of futures completed", WithUnit Dimensionless] }
    "failed to create FuturesCompletedCount instrument, " s
  let s := createInstrument meter (fun i h => { i with FuturesStartedCount := h })
    { kind := AsyncInt64Counter, name := "protoactor_futures_started_count",
      options := [WithDescription "Number of futures started", WithUnit Dimensionless] }
    "failed to create FuturesStartedCount instrument, " s
  let s := createInstrument meter (fun i h => { i with FuturesTimedOutCount := h })
    { kind := AsyncInt64Counter, name := "protoactor_futures_timed_out_count",
      options := [WithDescription "Number of futures timed out", WithUnit Dimensionless] }
    "failed to create FuturesTimedOutCount instrument, " s
  let s := createInstrument meter (fun i h => { i with ThreadPoolLatency := h })
    { kind := SyncInt64Histogram, name := "protoactor_thread_pool_latency_duration_seconds",
      options := [WithDescription "History of latency in second", WithUnit Milliseconds] }
    "failed to create ThreadPoolLatency instrument, " s
  s

/-- What a construction leaves behind: the pointer it returns, the creation
requests the backend received and the reports the logger received. -/
structure Construction (H : Type) where
  registry : Option (ActorMetrics H)
  requests : List Request
  reports : List LogEntry

/-- The function `newInstruments`: runs the ten statements and returns
`&instruments`. -/
def newInstruments {H : Type} (provider : Provider H) : Construction H :=
  let s := newInstrumentsFrame provider
  { registry := some s.instruments, requests := s.requests, reports := s.reports }

/-- The function `NewActorMetrics`. -/
def NewActorMetrics {H : Type} (provider : Provider H) : Construction H :=
  let instruments := newInstruments provider
  instruments

/-- The method `SetActorMailboxLengthGauge` on a receiver pointer `am`: lock
`am.mu`, assign the field, and run the deferred unlock on return. The result
is the state of the registry behind `am` when the call returns. -/
def SetActorMailboxLengthGauge {H : Type} (am : Option (ActorMetrics H))
    (gauge : Option H) : Outcome (ActorMetrics H) :=
  match am with
  | none => .panicked
  | some a =>
    match Mutex.Lock a.mu with
    | .panicked => .panicked
    | .blocked => .blocked
    | .returned m =>
      let a := { a with mu := some m }
      let a := { a with ActorMailboxLength := gauge }
      match Mutex.Unlock a.mu with
      | .panicked => .panicked
      | .blocked => .blocked
      | .returned m => .returned { a with mu := some m }

/-! ## Vocabulary of the properties -/

/-- The eleven instrument handle fields of `ActorMetrics`, in declaration
order. -/
inductive Field where
  | ActorFailureCount
  | ActorMailboxLength
  | ActorMessageReceiveHistogram
  | ActorRestartedCount
  | ActorSpawnCount
  | ActorStoppedCount
  | DeadLetterCount
  | FuturesCompletedCount
  | FuturesStartedCount
  | FuturesTimedOutCount
  | ThreadPoolLatency
  deriving DecidableEq, Repr

/-- The Go identifier of a field. -/
def Field.ident : Field → String
  | .ActorFailureCount => "ActorFailureCount"
  | .ActorMailboxLength => "ActorMailboxLength"
  | .ActorMessageReceiveHistogram => "ActorMessageReceiveHistogram"
  | .ActorRestartedCount => "ActorRestartedCount"
  | .ActorSpawnCount => "ActorSpawnCount"
  | .ActorStoppedCount => "ActorStoppedCount"
  | .DeadLetterCount => "DeadLetterCount"
  | .FuturesCompletedCount => "FuturesCompletedCount"
  | .FuturesStartedCount => "FuturesStartedCount"
  | .FuturesTimedOutCount => "FuturesTimedOutCount"
  | .ThreadPoolLatency => "ThreadPoolLatency"

/-- All eleven fields. -/
def Field.all : List Field :=
  [.ActorFailureCount, .ActorMailboxLength, .ActorMessageReceiveHistogram,
   .ActorRestartedCount, .ActorSpawnCount, .ActorStoppedCount, .DeadLetterCount,
   .FuturesCompletedCount, .FuturesStartedCount, .FuturesTimedOutCount,
   .ThreadPoolLatency]

/-- The handle stored in a field of a registry. -/
def ActorMetrics.handle {H : Type} (am : ActorMetrics H) : Field → Option H
  | .ActorFailureCount => am.ActorFailureCount
  | .ActorMailboxLength => am.ActorMailboxLength
  | .ActorMessageReceiveHistogram => am.ActorMessageReceiveHistogram
  | .ActorRestartedCount => am.ActorRestartedCount
  | .ActorSpawnCount => am.ActorSpawnCount
  | .ActorStoppedCount => am.ActorStoppedCount
  | .DeadLetterCount => am.DeadLetterCount
  | .FuturesCompletedCount => am.FuturesCompletedCount
  | .FuturesStartedCount => am.FuturesStartedCount
  | .FuturesTimedOutCount => am.FuturesTimedOutCount
  | .ThreadPoolLatency => am.ThreadPoolLatency

/-- The reports expected for one creation request: none when the reply carries
no error, and otherwise the single report whose message is the context
followed by the text of the backend's error. -/
def reportOf (context : String) : Option GoError → List LogEntry
  | none => []
  | some err =>
    [{ message := context ++ err.Error, fields := [LogField.Error (Errorf context err)] }]

/-- The context that `newInstruments` puts before the backend's error when the
creation of a field fails. -/
def failureContext (f : Field) : String :=
  "failed to create " ++ f.ident ++ " instrument, "

/-- The statements of `newInstruments` as a table, in order: the field that is
assigned and the creation request that is issued for it. -/
def creationTable : List (Field × Request) :=
  [ (.ActorFailureCount,
      { kind := AsyncInt64Counter, name := "protoactor_actor_failure_count",
        options := [WithDescription "Number of actor failures", WithUnit Dimensionless] }),
    (.ActorMessageReceiveHistogram,
      { kind := SyncFloat64Histogram,
        name := "protoactor_actor_message_receive_duration_seconds",
        options := [WithDescription "Actor's messages received duration in seconds"] }),
    (.ActorRestartedCount,
      { kind := AsyncInt64Counter, name := "protoactor_actor_restarted_count",
        options := [WithDescription "Number of actors restarts", WithUnit Dimensionless] }),
    (.ActorStoppedCount,
      { kind := AsyncInt64Counter, name := "protoactor_actor_stopped_count",
        options := [WithDescription "Number of actors stopped", WithUnit Dimensionless] }),
    (.ActorSpawnCount,
      { kind := AsyncInt64Counter, name := "protoactor_actor_spawn_count",
        options := [WithDescription "Number of actors spawn", WithUnit Dimensionless] }),
    (.DeadLetterCount,
      { kind := AsyncInt64Counter, name := "protoactor_deadletter_count",
        options := [WithDescription "Number of deadletters", WithUnit Dimensionless] }),
    (.FuturesCompletedCount,
      { kind := AsyncInt64Counter, name := "protoactor_futures_completed_count",
        options := [WithDescription "Number of futures completed", WithUnit Dimensionless] }),
    (.FuturesStartedCount,
      { kind := AsyncInt64Counter, name := "protoactor_futures_started_count",
        options := [WithDescription "Number of futures started", WithUnit Dimensionless] }),
    (.FuturesTimedOutCount,
      { kind := AsyncInt64Counter, name := "protoactor_futures_timed_out_count",
        options := [WithDescription "Number of futures timed out", WithUnit Dimensionless] }),
    (.ThreadPoolLatency,
      { kind := SyncInt64Histogram, name := "protoactor_thread_pool_latency_duration_seconds",
        options := [WithDescription "History of latency in second", WithUnit Milliseconds] }) ]

/-- The units that the options of a request carry. -/
def Request.units (r : Request) : List MetricUnit :=
  r.options.filterMap fun o =>
    match o with
    | .WithUnit u => some u
    | .WithDescription _ => none

/-- A name is lowercase and underscore-separated: cut at the underscores, it
falls into non-empty words of lowercase letters. -/
def lowerSnake (name : String) : Bool :=
  (name.toList.splitOn '_').all fun w => !w.isEmpty && w.all Char.isLower

/-- A name starts with the library name followed by an underscore. -/
def namespaced (name : String) : Bool :=
  (LibName ++ "_").toList.isPrefixOf name.toList

/-- A text occurs inside another one. -/
def occursIn (part whole : String) : Prop :=
  part.toList <:+: whole.toList

instance (part whole : String) : Decidable (occursIn part whole) := by
  unfold occursIn
  infer_instance

/-- A method call through a Go interface value: a nil interface value has no
method to dispatch to and the call panics with a nil dereference; otherwise
the call goes to the implementation behind the handle. -/
def invoke {H : Type} (handle : Option H) (method : H → Outcome Unit) : Outcome Unit :=
  match handle with
  | none => .panicked
  | some h => method h

/-- Successive calls of `SetActorMailboxLengthGauge` on one registry, one per
gauge of the list; the run returns only if every call returns. -/
def setEach {H : Type} (a : ActorMetrics H) : List (Option H) → Outcome (ActorMetrics H)
  | [] => .returned a
  | g :: gs =>
    match SetActorMailboxLengthGauge (some a) g with
    | .returned a1 => setEach a1 gs
    | .panicked => .panicked
    | .blocked => .blocked

/-- A recording method of a live handle that returns. -/
def recordingMethod : Nat → Outcome Unit :=
  fun _ => .returned ()

/-- A backend that creates every instrument; the handle is numbered after the
length of the name. -/
def healthyBackend : Provider Nat :=
  fun _ r => (some r.name.length, none)

/-- A backend that rejects the requests with the given names, with a nil handle,
and creates the others. -/
def rejecting (names : List String) : Provider Nat :=
  fun _ r =>
    if r.name ∈ names then (none, some (.backend "rejected"))
    else (some r.name.length, none)

/-- A backend that rejects every request with a nil handle. -/
def failingBackend : Provider Nat :=
  fun _ _ => (none, some (.backend "unavailable"))

/-- A backend that rejects every request and still hands out a handle with the
error. -/
def leakyBackend : Provider Nat :=
  fun _ _ => (some 7, some (.backend "duplicate instrument"))

/-! ## The statements of `newInstruments`, one at a time -/

section Steps

variable {H : Type} (meter : Meter H) (assign : ActorMetrics H → Option H → ActorMetrics H)
  (request : Request) (context : String) (s : Frame H)

theorem createInstrument_requests :
    (createInstrument meter assign request context s).requests = s.requests ++ [request] := by
  unfold createInstrument
  cases h : (meter request).2 <;> simp [h]

theorem createInstrument_reports :
    (createInstrument meter assign request context s).reports
      = s.reports ++ reportOf context (meter request).2 := by
  unfold createInstrument
  cases h : (meter request).2 <;> simp [h, reportOf, Errorf, GoError.Error]

theorem createInstrument_instruments :
    (createInstrument meter assign request context s).instruments
      = assign s.instruments (meter request).1 := by
  unfold createInstrument
  cases h : (meter request).2 <;> simp [h]

end Steps

/-! ## The whole of `newInstruments` -/

section Whole

variable {H : Type} (provider : Provider H)

theorem frame_requests :
    (newInstrumentsFrame provider).requests = creationTable.map Prod.snd := by
  simp [newInstrumentsFrame, createInstrument_requests, creationTable]

theorem frame_reports :
    (newInstrumentsFrame provider).reports
      = creationTable.flatMap fun e => reportOf (failureContext e.1) ((provider LibName) e.2).2 := by
  simp [newInstrumentsFrame, createInstrument_reports, creationTable, failureContext,
    Field.ident]

theorem frame_instruments :
    (newInstrumentsFrame provider).instruments =
      { mu := some { locked := false }, ID := "",
        ActorFailureCount := ((provider LibName) creationTable[0].2).1,
        ActorMailboxLength := none,
        ActorMessageReceiveHistogram := ((provider LibName) creationTable[1].2).1,
        ActorRestartedCount := ((provider LibName) creationTable[2].2).1,
        ActorStoppedCount := ((provider LibName) creationTable[3].2).1,
        ActorSpawnCount := ((provider LibName) creationTable[4].2).1,
        DeadLetterCount := ((provider LibName) creationTable[5].2).1,
        FuturesCompletedCount := ((provider LibName) creationTable[6].2).1,
        FuturesStartedCount := ((provider LibName) creationTable[7].2).1,
        FuturesTimedOutCount := ((provider LibName) creationTable[8].2).1,
        ThreadPoolLatency := ((provider LibName) creationTable[9].2).1 } := by
  simp [newInstrumentsFrame, createInstrument_instruments, creationTable, ActorMetrics.zero]

theorem construction_requests :
    (NewActorMetrics provider).requests = creationTable.map Prod.snd := by
  simp [NewActorMetrics, newInstruments, frame_requests]

theorem construction_reports :
    (NewActorMetrics provider).reports
      = creationTable.flatMap fun e => reportOf (failureContext e.1) ((provider LibName) e.2).2 := by
  simp only [NewActorMetrics, newInstruments, frame_reports]

theorem construction_registry :
    (NewActorMetrics provider).registry = some (newInstrumentsFrame provider).instruments := by
  simp [NewActorMetrics, newInstruments]

end Whole

theorem reportOf_length (context : String) (e : Option GoError) :
    (reportOf context e).length = if e.isSome then 1 else 0 := by
  cases e <;> simp [reportOf]

theorem flatMap_reportOf_length {α : Type} (context : α → String) (reply : α → Option GoError)
    (l : List α) :
    (l.flatMap fun e => reportOf (context e) (reply e)).length
      = l.countP fun e => (reply e).isSome := by
  induction l with
  | nil => simp
  | cons a l ih =>
    simp only [List.flatMap_cons, List.length_append, ih, reportOf_length, List.countP_cons]
    omega

theorem setter_of_free_guard {H : Type} (r : ActorMetrics H) (g : Option H)
    (h : r.mu = some { locked := false }) :
    SetActorMailboxLengthGauge (some r) g = .returned { r with ActorMailboxLength := g } := by
  cases r
  simp only at h
  subst h
  simp [SetActorMailboxLengthGauge, Mutex.Lock, Mutex.Unlock]

theorem setEach_of_free_guard {H : Type} (gs : List (Option H)) :
    ∀ r : ActorMetrics H, r.mu = some { locked := false } →
      ∃ r1, setEach r gs = .returned r1 ∧ r1.mu = some { locked := false } := by
  induction gs with
  | nil => exact fun r h => ⟨r, rfl, h⟩
  | cons g gs ih =>
    intro r h
    simp only [setEach, setter_of_free_guard r g h]
    exact ih _ h

/-- C1: the creation requests that construction issues are the same for every
backend, whatever it replies: they are the ten requests of the table, so after
a request that the backend answers with an error every later request is still
issued, unchanged; and the pointer returned is never nil. -/
theorem requests_same_for_every_backend {H₁ H₂ : Type} (p : Provider H₁) (q : Provider H₂) :
    (NewActorMetrics p).requests = (NewActorMetrics q).requests
    ∧ (NewActorMetrics p).requests = creationTable.map Prod.snd
    ∧ (NewActorMetrics p).registry ≠ none
    ∧ (newInstruments p).registry ≠ none
    ∧ ∀ i j r, (NewActorMetrics p).requests[i]? = some r → ((p LibName) r).2 ≠ none →
        i < j → j < (NewActorMetrics q).requests.length →
        (NewActorMetrics p).requests[j]? = (NewActorMetrics q).requests[j]?
          ∧ (NewActorMetrics p).requests[j]? ≠ none := by
  have hp := construction_requests p
  have hq := construction_requests q
  refine ⟨by rw [hp, hq], hp, by simp [construction_registry], by simp [newInstruments], ?_⟩
  intro i j r _ _ _ hj
  rw [hp]
  rw [hq] at hj
  refine ⟨by rw [hq], ?_⟩
  simp only [ne_eq, List.getElem?_eq_none_iff, not_le]
  exact hj

/-- C2, as stated, fails: against a backend that creates everything,
construction issues ten requests, not eleven, and none of them is a gauge
request or is named after the mailbox length. -/
theorem eleven_requests_counterexample :
    (NewActorMetrics healthyBackend).requests.length = 10
    ∧ (NewActorMetrics healthyBackend).requests.length ≠ 11
    ∧ ¬ ∃ r ∈ (NewActorMetrics healthyBackend).requests,
        r.kind = AsyncInt64Gauge ∨ r.name = "protoactor_actor_mailbox_length" := by
  rw [construction_requests]
  decide

/-- C2, amended: construction issues exactly ten creation requests, one for
each instrument handle field of the registry other than ActorMailboxLength, in
the order of the table; no request is a gauge request or is named
protoactor_actor_mailbox_length, and the ActorMailboxLength field of the
registry returned is nil. -/
theorem ten_requests_none_for_mailbox_length {H : Type} (p : Provider H) :
    (NewActorMetrics p).requests = creationTable.map Prod.snd
    ∧ (NewActorMetrics p).requests.length = 10
    ∧ (creationTable.map Prod.fst).Nodup
    ∧ (∀ f : Field, f ∈ creationTable.map Prod.fst ↔ f ≠ Field.ActorMailboxLength)
    ∧ (∀ r ∈ (NewActorMetrics p).requests,
        r.kind ≠ AsyncInt64Gauge ∧ r.name ≠ "protoactor_actor_mailbox_length")
    ∧ ∃ am, (NewActorMetrics p).registry = some am ∧ am.ActorMailboxLength = none := by
  rw [construction_requests]
  refine ⟨rfl, by decide, by decide, ?_, by decide, ?_⟩
  · intro f
    cases f <;> decide
  · exact ⟨_, construction_registry p, by rw [frame_instruments]⟩

/-- C3: the reports that construction sends to the logger are, in creation
order, one report for each request that the backend answered with an error and
none for the others; the message of a report is "failed to create <Field>
instrument, " followed by the text of the backend's error, for the field of
the failed request. So against a backend that fails the
protoactor_deadletter_count request only, the logger receives exactly one
report, and its message contains "DeadLetterCount". -/
theorem reports_one_per_failed_request {H : Type} (p : Provider H) :
    (NewActorMetrics p).reports
        = (creationTable.flatMap fun e => reportOf (failureContext e.1) ((p LibName) e.2).2)
    ∧ (NewActorMetrics p).reports.length
        = creationTable.countP (fun e => ((p LibName) e.2).2.isSome)
    ∧ (∀ m ∈ (NewActorMetrics p).reports, ∃ e ∈ creationTable, ∃ err : GoError,
        ((p LibName) e.2).2 = some err
        ∧ m.message = "failed to create " ++ e.1.ident ++ " instrument, " ++ err.Error)
    ∧ ((∀ r ∈ (NewActorMetrics p).requests,
          ((p LibName) r).2 ≠ none ↔ r.name = "protoactor_deadletter_count") →
        ∃ (m : LogEntry) (err : GoError), (NewActorMetrics p).reports = [m]
          ∧ m.message = "failed to create DeadLetterCount instrument, " ++ err.Error
          ∧ occursIn "DeadLetterCount" m.message) := by
  have hr := construction_reports p
  refine ⟨hr, ?_, ?_, ?_⟩
  · rw [hr, flatMap_reportOf_length]
  · intro m hm
    rw [hr, List.mem_flatMap] at hm
    obtain ⟨e, he, hm⟩ := hm
    cases h : ((p LibName) e.2).2 with
    | none => simp [h, reportOf] at hm
    | some err =>
      simp only [h, reportOf, List.mem_singleton] at hm
      exact ⟨e, he, err, h, by rw [hm]; rfl⟩
  · intro h
    rw [construction_requests] at h
    simp [creationTable] at h
    obtain ⟨h0, h1, h2, h3, h4, h5, h6, h7, h8, h9⟩ := h
    obtain ⟨err, h5⟩ := Option.ne_none_iff_exists'.mp h5
    refine ⟨{ message := "failed to create DeadLetterCount instrument, " ++ err.Error,
              fields := [LogField.Error (Errorf "failed to create DeadLetterCount instrument, " err)] },
      err, ?_, rfl, ?_⟩
    · rw [hr]
      simp [creationTable, reportOf, h0, h1, h2, h3, h4, h5, h6, h7, h8, h9, failureContext,
        Field.ident]
    · refine ⟨"failed to create ".toList, (" instrument, " ++ err.Error).toList, ?_⟩
      simp [String.data_append]

/-- C3 at a backend that rejects the protoactor_deadletter_count request only:
exactly one report reaches the logger, and it names DeadLetterCount. -/
theorem reports_deadletter_only :
    (∀ r ∈ (NewActorMetrics (rejecting ["protoactor_deadletter_count"])).requests,
        (((rejecting ["protoactor_deadletter_count"]) LibName) r).2 ≠ none
          ↔ r.name = "protoactor_deadletter_count")
    ∧ ∃ (m : LogEntry) (err : GoError),
        (NewActorMetrics (rejecting ["protoactor_deadletter_count"])).reports = [m]
          ∧ m.message = "failed to create DeadLetterCount instrument, " ++ err.Error
          ∧ occursIn "DeadLetterCount" m.message :=
  ⟨by rw [construction_requests]; decide,
   (reports_one_per_failed_request (rejecting ["protoactor_deadletter_count"])).2.2.2
     (by rw [construction_requests]; decide)⟩

/-- C4, as stated, fails: a backend that answers every request with an error
and a handle next to it leaves that handle, not nil, in the field. -/
theorem failed_field_keeps_handle_counterexample :
    ((leakyBackend LibName)
        { kind := AsyncInt64Counter, name := "protoactor_actor_failure_count",
          options := [WithDescription "Number of actor failures", WithUnit Dimensionless] }).2
      = some (GoError.backend "duplicate instrument")
    ∧ (NewActorMetrics leakyBackend).registry.map (fun am => am.ActorFailureCount)
      = some (some 7)
    ∧ (NewActorMetrics leakyBackend).registry.map (fun am => am.ActorFailureCount)
      ≠ some none := by
  decide

/-- C4, amended: for each of the ten instruments that construction requests and
every backend, the field of the registry returned holds the handle that the
backend returned for the request, also when it returned an error; so the field
of a failed instrument is nil when the backend returned a nil handle with the
error. -/
theorem field_holds_replied_handle {H : Type} (p : Provider H) :
    ∃ am, (NewActorMetrics p).registry = some am
      ∧ ∀ e ∈ creationTable,
          am.handle e.1 = ((p LibName) e.2).1
          ∧ (((p LibName) e.2).2 ≠ none → ((p LibName) e.2).1 = none → am.handle e.1 = none) := by
  refine ⟨_, construction_registry p, ?_⟩
  have key : ∀ e ∈ creationTable,
      (newInstrumentsFrame p).instruments.handle e.1 = ((p LibName) e.2).1 := by
    intro e he
    rw [frame_instruments]
    simp only [creationTable, List.mem_cons, List.mem_singleton, List.not_mem_nil, or_false] at he
    rcases he with rfl | rfl | rfl | rfl | rfl | rfl | rfl | rfl | rfl | rfl <;> rfl
  intro e he
  exact ⟨key e he, fun _ hnil => by rw [key e he, hnil]⟩

/-- C4, amended, at a backend that rejects every request with a nil handle:
every requested field of the registry is nil. -/
theorem field_holds_replied_handle_all_rejected :
    ∃ am, (NewActorMetrics failingBackend).registry = some am
      ∧ ∀ e ∈ creationTable, am.handle e.1 = none := by
  obtain ⟨am, ham, h⟩ := field_holds_replied_handle failingBackend
  exact ⟨am, ham, fun e he => (h e he).2 (by simp [failingBackend]) rfl⟩

/-- C5, as stated, fails: after a construction in which every request failed
with a nil handle, recording through the ActorSpawnCount field panics. -/
theorem recording_on_failed_registry_counterexample :
    (∀ e ∈ creationTable,
        (failingBackend LibName) e.2 = (none, some (GoError.backend "unavailable")))
    ∧ (NewActorMetrics failingBackend).registry.map
        (fun am => invoke am.ActorSpawnCount recordingMethod)
      = some Outcome.panicked := by
  decide

/-- C5, amended: if every creation request fails with a nil handle, every
instrument handle field of the registry returned is nil, and a recording method
invoked through such a field panics; a recording call completes as the
backend's method does only through a handle that is not nil, so a caller needs
the nil check. -/
theorem all_failed_fields_nil {H : Type} (p : Provider H)
    (hfail : ∀ r ∈ (NewActorMetrics p).requests,
      ((p LibName) r).1 = none ∧ ((p LibName) r).2 ≠ none) :
    ∃ am, (NewActorMetrics p).registry = some am
      ∧ (∀ f : Field, am.handle f = none)
      ∧ (∀ (f : Field) (method : H → Outcome Unit), invoke (am.handle f) method = .panicked)
      ∧ ∀ (h : H) (method : H → Outcome Unit), invoke (some h) method = method h := by
  refine ⟨_, construction_registry p, ?_⟩
  rw [construction_requests] at hfail
  simp [creationTable] at hfail
  obtain ⟨h0, h1, h2, h3, h4, h5, h6, h7, h8, h9⟩ := hfail
  have hnil : ∀ f : Field, (newInstrumentsFrame p).instruments.handle f = none := by
    intro f
    rw [frame_instruments]
    cases f <;> simp [ActorMetrics.handle, creationTable, h0, h1, h2, h3, h4, h5, h6, h7, h8, h9]
  refine ⟨hnil, ?_, fun _ _ => rfl⟩
  intro f method
  rw [hnil f]
  rfl

/-- C5, amended, at the backend that rejects every request with a nil handle. -/
theorem all_failed_fields_nil_at_failing_backend :
    (∀ r ∈ (NewActorMetrics failingBackend).requests,
      ((failingBackend LibName) r).1 = none ∧ ((failingBackend LibName) r).2 ≠ none)
    ∧ ∃ am, (NewActorMetrics failingBackend).registry = some am
      ∧ (∀ f : Field, am.handle f = none)
      ∧ (∀ (f : Field) (method : Nat → Outcome Unit), invoke (am.handle f) method = .panicked)
      ∧ ∀ (h : Nat) (method : Nat → Outcome Unit), invoke (some h) method = method h :=
  ⟨by rw [construction_requests]; decide,
   all_failed_fields_nil failingBackend (by rw [construction_requests]; decide)⟩

/-- C6: the instrument names that construction requests are the same list, in
the same order, for every backend and on every construction; they are pairwise
distinct, and each is lowercase, underscore-separated and starts with
"protoactor_". -/
theorem names_distinct_and_stable {H₁ H₂ : Type} (p : Provider H₁) (q : Provider H₂) :
    (NewActorMetrics p).requests.map Request.name = (NewActorMetrics q).requests.map Request.name
    ∧ (NewActorMetrics p).requests.map Request.name =
        [ "protoactor_actor_failure_count",
          "protoactor_actor_message_receive_duration_seconds",
          "protoactor_actor_restarted_count",
          "protoactor_actor_stopped_count",
          "protoactor_actor_spawn_count",
          "protoactor_deadletter_count",
          "protoactor_futures_completed_count",
          "protoactor_futures_started_count",
          "protoactor_futures_timed_out_count",
          "protoactor_thread_pool_latency_duration_seconds" ]
    ∧ ((NewActorMetrics p).requests.map Request.name).Nodup
    ∧ (∀ n ∈ (NewActorMetrics p).requests.map Request.name,
        lowerSnake n = true ∧ namespaced n = true
          ∧ "protoactor_".toList <+: n.toList) := by
  rw [construction_requests p, construction_requests q]
  exact ⟨rfl, by decide, by decide, by decide⟩

/-- C9: in the requests that construction issues, every counter request carries
the dimensionless unit and no other; the request named
protoactor_thread_pool_latency_duration_seconds is the integer histogram
request and carries the milliseconds unit; the request named
protoactor_actor_message_receive_duration_seconds is the floating-point
histogram request and carries no unit option. -/
theorem request_units {H : Type} (p : Provider H) :
    (∀ r ∈ (NewActorMetrics p).requests, r.kind = AsyncInt64Counter →
        WithUnit Dimensionless ∈ r.options ∧ r.units = [Dimensionless])
    ∧ ((NewActorMetrics p).requests.filter fun r => r.kind = AsyncInt64Counter).length = 8
    ∧ (∀ r ∈ (NewActorMetrics p).requests, r.kind = SyncInt64Histogram →
        r.name = "protoactor_thread_pool_latency_duration_seconds"
        ∧ WithUnit Milliseconds ∈ r.options ∧ r.units = [Milliseconds])
    ∧ (∃ r ∈ (NewActorMetrics p).requests,
        r.name = "protoactor_thread_pool_latency_duration_seconds"
        ∧ r.kind = SyncInt64Histogram ∧ WithUnit Milliseconds ∈ r.options)
    ∧ (∀ r ∈ (NewActorMetrics p).requests, r.kind = SyncFloat64Histogram →
        r.name = "protoactor_actor_message_receive_duration_seconds"
        ∧ r.units = [] ∧ ∀ u, WithUnit u ∉ r.options)
    ∧ (∃ r ∈ (NewActorMetrics p).requests,
        r.name = "protoactor_actor_message_receive_duration_seconds"
        ∧ r.kind = SyncFloat64Histogram ∧ ∀ u, WithUnit u ∉ r.options) := by
  rw [construction_requests]
  refine ⟨by decide, by decide, by decide, by decide, ?_, ?_⟩
  · intro r hr hk
    simp only [creationTable, List.map_cons, List.map_nil, List.mem_cons, List.mem_singleton,
      List.not_mem_nil, or_false] at hr
    rcases hr with rfl | rfl | rfl | rfl | rfl | rfl | rfl | rfl | rfl | rfl <;>
      first
      | exact absurd hk (by decide)
      | exact ⟨rfl, rfl, fun u => by simp⟩
  · exact ⟨creationTable[1].2, by decide, rfl, rfl, fun u => by simp [creationTable]⟩

/-- C10: for every backend, the registry that construction returns has a guard
that is not nil and is free; every setter call on it, with any gauge handle,
nil included, returns and leaves the guard free again; so any number of
successive setter calls each return. -/
theorem setter_always_returns {H : Type} (p : Provider H) (gs : List (Option H)) :
    ∃ am, (NewActorMetrics p).registry = some am
      ∧ am.mu = some { locked := false }
      ∧ (∀ g : Option H, ∃ am1,
          SetActorMailboxLengthGauge (NewActorMetrics p).registry g = .returned am1
            ∧ am1.mu = some { locked := false })
      ∧ ∃ am2, setEach am gs = .returned am2 ∧ am2.mu = some { locked := false } := by
  have hmu : (newInstrumentsFrame p).instruments.mu = some { locked := false } := by
    rw [frame_instruments]
  refine ⟨_, construction_registry p, hmu, ?_, setEach_of_free_guard gs _ hmu⟩
  intro g
  rw [construction_registry p]
  exact ⟨_, setter_of_free_guard _ g hmu, hmu⟩

end Metrics
